import Mathlib

/-!
Verification of the core game logic of `src/main.js` (a minimal real-time
2D fighting-game simulation).

Numbers.  The source computes with JavaScript numbers, but every
quantity it ever produces is an integer multiple of 0.01: the only
non-integer constants are the gravity 0.7 and the AI attack threshold
0.02, and the program only adds, subtracts, negates and compares its
quantities (it never multiplies or divides two of them).  Numbers are
therefore embedded exactly as fixed-point hundredths: a `Num` carries
`100 * v` for the value `v`, a numeral such as `400` denotes 400 whole
units, `Num.ofCents 70` is 0.7 and `Num.ofCents 2` is 0.02.  On this
grid the embedding is exact, and every operation is kernel-computable.

Scope.  Rendering, the DOM writes and the keyboard listeners are out of
scope; the per-frame `animate` loop is modelled as a pure state
transformer that additionally returns the list of terminal messages
published during the frame, and the `setTimeout`-based attack-window
reset of `attack()` is modelled separately as an explicit event
timeline (`AttackTimer`).
-/

namespace PrecisionFighter

/-- An exact fixed-point number: `cents` is one hundred times the value. -/
structure Num where
  cents : Int
deriving DecidableEq

/-- The number with the given count of hundredths. -/
def Num.ofCents (n : Int) : Num := ⟨n⟩

instance (n : Nat) : OfNat Num n := ⟨⟨(n : Int) * 100⟩⟩

instance : Add Num := ⟨fun a b => ⟨a.cents + b.cents⟩⟩

instance : Sub Num := ⟨fun a b => ⟨a.cents - b.cents⟩⟩

instance : Neg Num := ⟨fun a => ⟨-a.cents⟩⟩

instance : LE Num := ⟨fun a b => a.cents ≤ b.cents⟩

instance : LT Num := ⟨fun a b => a.cents < b.cents⟩

instance (a b : Num) : Decidable (a ≤ b) := inferInstanceAs (Decidable (a.cents ≤ b.cents))

instance (a b : Num) : Decidable (a < b) := inferInstanceAs (Decidable (a.cents < b.cents))

/-- Absolute value (`Math.abs`). -/
def Num.abs (a : Num) : Num := if a.cents < 0 then ⟨-a.cents⟩ else a

theorem Num.eq_iff {a b : Num} : a = b ↔ a.cents = b.cents := by
  cases a; cases b; simp

theorem Num.le_iff {a b : Num} : a ≤ b ↔ a.cents ≤ b.cents := Iff.rfl

theorem Num.lt_iff {a b : Num} : a < b ↔ a.cents < b.cents := Iff.rfl

@[simp] theorem Num.add_cents (a b : Num) : (a + b).cents = a.cents + b.cents := rfl

@[simp] theorem Num.sub_cents (a b : Num) : (a - b).cents = a.cents - b.cents := rfl

@[simp] theorem Num.neg_cents (a : Num) : (-a).cents = -a.cents := rfl

@[simp] theorem Num.ofNat_cents (n : Nat) :
    (no_index (OfNat.ofNat n) : Num).cents = (n : Int) * 100 := rfl

@[simp] theorem Num.ofCents_cents (n : Int) : (Num.ofCents n).cents = n := rfl

/-- Game constant `GRAVITY = 0.7` from `src/main.js`. -/
def GRAVITY : Num := Num.ofCents 70

/-- Game constant `TERMINAL_VELOCITY` (declared in the source, never used). -/
def TERMINAL_VELOCITY : Num := 15

/-- Game constant `GAME_WIDTH` (the canvas width). -/
def GAME_WIDTH : Num := 1024

/-- Game constant `GAME_HEIGHT` (the canvas height). -/
def GAME_HEIGHT : Num := 576

/-- Game constant `GROUND_HEIGHT`. -/
def GROUND_HEIGHT : Num := 96

/-- A 2D vector, used for positions, velocities and offsets. -/
structure Vec2 where
  x : Num
  y : Num
deriving DecidableEq

/-- The `attackBox` object attached to each sprite. -/
structure Box where
  position : Vec2
  offset : Vec2
  width : Num
  height : Num
deriving DecidableEq

/-- The mutable state of one `Sprite` (one fighter) from `src/main.js`. -/
structure Sprite where
  position : Vec2
  velocity : Vec2
  width : Num
  height : Num
  lastKey : String
  attackBox : Box
  color : String
  isAttacking : Bool
  health : Num
  isDead : Bool
  direction : Int
  isJumping : Bool
deriving DecidableEq

/-- The `Sprite` constructor: fixed 50x150 body, 100x50 attack box whose
position starts at the sprite position, 100 health, alive, facing right. -/
def mkSprite (position velocity : Vec2) (color : String) (offset : Vec2) : Sprite :=
  { position := position
    velocity := velocity
    width := 50
    height := 150
    lastKey := ""
    attackBox :=
      { position := { x := position.x, y := position.y }
        offset := offset
        width := 100
        height := 50 }
    color := color
    isAttacking := false
    health := 100
    isDead := false
    direction := 1
    isJumping := false }

/-- `Sprite.update` from `src/main.js` (the `draw()` call has no state
effect and is omitted): early return when dead; otherwise align the attack
box to the current position and facing, integrate velocity into position,
resolve ground contact (zero vertical velocity and pin to the ground line)
or add gravity, then clamp the horizontal position to the stage. -/
def Sprite.update (s : Sprite) : Sprite :=
  if s.isDead then s
  else
    let abx : Num :=
      if s.direction = 1 then s.position.x + s.attackBox.offset.x
      else s.position.x - s.attackBox.width + s.width - s.attackBox.offset.x
    let aby : Num := s.position.y + s.attackBox.offset.y
    let s1 : Sprite :=
      { s with
        attackBox := { s.attackBox with position := { x := abx, y := aby } }
        position :=
          { x := s.position.x + s.velocity.x
            y := s.position.y + s.velocity.y } }
    let s2 : Sprite :=
      if s1.position.y + s1.height + s1.velocity.y ≥ GAME_HEIGHT - GROUND_HEIGHT then
        { s1 with
          velocity := { s1.velocity with y := 0 }
          position := { s1.position with y := GAME_HEIGHT - s1.height - GROUND_HEIGHT }
          isJumping := false }
      else
        { s1 with velocity := { s1.velocity with y := s1.velocity.y + GRAVITY } }
    let s3 : Sprite :=
      if s2.position.x < 0 then { s2 with position := { s2.position with x := 0 } } else s2
    if s3.position.x + s3.width > GAME_WIDTH then
      { s3 with position := { s3.position with x := GAME_WIDTH - s3.width } }
    else s3

/-- `Sprite.attack` from `src/main.js`: sets the attacking flag.  The
100 ms `setTimeout` reset is modelled separately by `AttackTimer`. -/
def Sprite.attack (s : Sprite) : Sprite :=
  { s with isAttacking := true }

/-- `Sprite.takeHit` from `src/main.js`: subtract the damage from health;
if the result is at most 0, clamp health to 0 and mark the sprite dead. -/
def Sprite.takeHit (s : Sprite) (damage : Num) : Sprite :=
  let s1 : Sprite := { s with health := s.health - damage }
  if s1.health ≤ 0 then { s1 with health := 0, isDead := true } else s1

/-- `rectangularCollision` from `src/main.js`: tests the first sprite's
attack box against the second sprite's body box, all four comparisons
inclusive. -/
def rectangularCollision (rectangle1 rectangle2 : Sprite) : Bool :=
  decide (rectangle1.attackBox.position.x + rectangle1.attackBox.width ≥ rectangle2.position.x) &&
  decide (rectangle1.attackBox.position.x ≤ rectangle2.position.x + rectangle2.width) &&
  decide (rectangle1.attackBox.position.y + rectangle1.attackBox.height ≥ rectangle2.position.y) &&
  decide (rectangle1.attackBox.position.y ≤ rectangle2.position.y + rectangle2.height)

/-- The message chosen by `determineWinner` in `src/main.js`. -/
def winnerMessage (player enemy : Sprite) : String :=
  if player.health = enemy.health then "Tie"
  else if player.health > enemy.health then "Player 1 Wins"
  else "Enemy Wins"

/-- The pressed-state of the two horizontal movement keys read by the
main loop (`keys.a.pressed`, `keys.d.pressed` in `src/main.js`). -/
structure Keys where
  aPressed : Bool
  dPressed : Bool
deriving DecidableEq

/-- The global match state read and written by the `animate` loop. -/
structure GameState where
  player : Sprite
  enemy : Sprite
  keys : Keys
  gameRunning : Bool
deriving DecidableEq

/-- `updateEnemyAI` from `src/main.js`.  The single `Math.random()` draw
of the tick is passed in as `randomDraw`; the source attacks when the
draw is below `0.02` (here `Num.ofCents 2`). -/
def updateEnemyAI (player enemy : Sprite) (gameRunning : Bool) (randomDraw : Num) : Sprite :=
  if enemy.isDead = true ∨ gameRunning = false then
    { enemy with velocity := { enemy.velocity with x := 0 } }
  else
    let distanceX : Num := player.position.x - enemy.position.x
    let distance : Num := distanceX.abs
    let e0 : Sprite := { enemy with velocity := { enemy.velocity with x := 0 } }
    if distance < 400 ∧ distance > 60 then
      if distanceX > 0 then
        { e0 with velocity := { e0.velocity with x := 2 }, direction := 1 }
      else
        { e0 with velocity := { e0.velocity with x := -2 }, direction := -1 }
    else if distance ≤ 60 then
      let e1 : Sprite := { e0 with direction := if distanceX > 0 then 1 else -1 }
      if randomDraw < Num.ofCents 2 then e1.attack else e1
    else e0

/-- Phase (1) of the `animate` loop: `player.update(); enemy.update()`. -/
def updatePhase (g : GameState) : GameState :=
  { g with player := g.player.update, enemy := g.enemy.update }

/-- Phase (2) of the `animate` loop: reset the player's horizontal
velocity, then derive it from the held keys and `lastKey`, only while the
player is alive and the match is running. -/
def movementPhase (g : GameState) : GameState :=
  let p0 : Sprite := { g.player with velocity := { g.player.velocity with x := 0 } }
  let p1 : Sprite :=
    if p0.isDead = false ∧ g.gameRunning = true then
      if g.keys.aPressed = true ∧ p0.lastKey = "a" then
        { p0 with velocity := { p0.velocity with x := -5 }, direction := -1 }
      else if g.keys.dPressed = true ∧ p0.lastKey = "d" then
        { p0 with velocity := { p0.velocity with x := 5 }, direction := 1 }
      else p0
    else p0
  { g with player := p1 }

/-- Phase (3) of the `animate` loop: run the enemy AI. -/
def aiPhase (g : GameState) (randomDraw : Num) : GameState :=
  { g with enemy := updateEnemyAI g.player g.enemy g.gameRunning randomDraw }

/-- Phases (4) and (5) of the `animate` loop: the player-hits-enemy check
followed by the enemy-hits-player check.  On a hit the attacker's flag is
cleared and, if the defender is not already dead, it takes 10 damage. -/
def collisionPhase (g : GameState) : GameState :=
  let g1 : GameState :=
    if rectangularCollision g.player g.enemy = true ∧ g.player.isAttacking = true ∧
        g.gameRunning = true then
      { g with
        player := { g.player with isAttacking := false }
        enemy := if g.enemy.isDead = false then g.enemy.takeHit 10 else g.enemy }
    else g
  if rectangularCollision g1.enemy g1.player = true ∧ g1.enemy.isAttacking = true ∧
      g1.gameRunning = true then
    { g1 with
      enemy := { g1.enemy with isAttacking := false }
      player := if g1.player.isDead = false then g1.player.takeHit 10 else g1.player }
  else g1

/-- Phase (6) of the `animate` loop: if either health is at most 0, call
`determineWinner`, which stops the match and publishes the result message.
The returned list holds the messages published during the phase. -/
def endCheckPhase (g : GameState) : GameState × List String :=
  if g.enemy.health ≤ 0 ∨ g.player.health ≤ 0 then
    ({ g with gameRunning := false }, [winnerMessage g.player g.enemy])
  else (g, [])

/-- One full `animate` tick (rendering omitted): entity updates, player
movement, enemy AI, both collision checks, end-of-match check.  Returns
the new state and the terminal messages published during the tick. -/
def animate (g : GameState) (randomDraw : Num) : GameState × List String :=
  endCheckPhase (collisionPhase (aiPhase (movementPhase (updatePhase g)) randomDraw))

/-- Run `animate` for one tick per entry of `draws`, collecting every
terminal message published along the way. -/
def animateRun (g : GameState) : List Num → GameState × List String
  | [] => (g, [])
  | r :: rs =>
    let step := animate g r
    let rest := animateRun step.1 rs
    (rest.1, step.2 ++ rest.2)

/-- The wall-clock behaviour of `Sprite.attack`'s `setTimeout` reset,
modelled as an explicit timeline: the attacking flag together with the
deadlines (in milliseconds) of every scheduled, un-cancelable reset. -/
structure AttackTimer where
  isAttacking : Bool
  pending : List Nat
deriving DecidableEq

/-- A call of `attack()` at wall-clock time `now`: the flag is set and a
reset firing at `now + 100` is scheduled alongside the existing ones
(the source never cancels a scheduled reset). -/
def attackCall (s : AttackTimer) (now : Nat) : AttackTimer :=
  { isAttacking := true, pending := s.pending ++ [now + 100] }

/-- Let the wall clock reach `now`: every scheduled reset whose deadline
has passed fires, and each firing reset assigns `isAttacking := false`. -/
def elapseTo (s : AttackTimer) (now : Nat) : AttackTimer :=
  { isAttacking := if s.pending.any (fun d => decide (d ≤ now)) then false else s.isAttacking
    pending := s.pending.filter (fun d => decide (now < d)) }

/-- The health invariant stated in the specification: health stays in
`[0, 100]` and `isDead` holds exactly when health is 0. -/
def HealthInv (s : Sprite) : Prop :=
  0 ≤ s.health ∧ s.health ≤ 100 ∧ (s.isDead = true ↔ s.health = 0)

/-- Modelled from the spec's words (collision detector contract): the
attacker's attack box and the defender's body box intersect under
axis-aligned bounding-box overlap with inclusive bounds on all four
comparisons, so rectangles that merely touch at an edge intersect. -/
def attackBoxIntersectsBody (attacker defender : Sprite) : Prop :=
  defender.position.x ≤ attacker.attackBox.position.x + attacker.attackBox.width ∧
  attacker.attackBox.position.x ≤ defender.position.x + defender.width ∧
  defender.position.y ≤ attacker.attackBox.position.y + attacker.attackBox.height ∧
  attacker.attackBox.position.y ≤ defender.position.y + defender.height

/-- The `player` object created at match start in `src/main.js`. -/
def playerStart : Sprite :=
  mkSprite { x := 100, y := 0 } { x := 0, y := 0 } "#818cf8" { x := 0, y := 50 }

/-- The `enemy` object created at match start in `src/main.js` (facing
left). -/
def enemyStart : Sprite :=
  { mkSprite { x := 800, y := 0 } { x := 0, y := 0 } "#f87171" { x := 0, y := 50 } with
    direction := -1 }

/-- A reachable player state: standing on the ground next to the enemy,
mid-attack. -/
def playerCE : Sprite :=
  { playerStart with position := { x := 100, y := 330 }, isAttacking := true }

/-- A reachable enemy state: standing on the ground at 10 health. -/
def enemyCE : Sprite :=
  { enemyStart with position := { x := 150, y := 330 }, health := 10 }

/-- A running match one hit away from ending by health depletion. -/
def stateCE : GameState :=
  { player := playerCE
    enemy := enemyCE
    keys := { aPressed := false, dPressed := false }
    gameRunning := true }

/-- A dead sprite whose attack box sits away from where the alignment
step would place it. -/
def deadSpriteCE : Sprite :=
  { playerStart with
    position := { x := 5, y := 330 }
    health := 0
    isDead := true
    attackBox := { playerStart.attackBox with position := { x := 999, y := 999 } } }

/-- A player state mid-attack with its attack box already aligned over
the enemy below. -/
def playerHit : Sprite :=
  { playerStart with
    position := { x := 100, y := 330 }
    isAttacking := true
    attackBox := { playerStart.attackBox with position := { x := 100, y := 380 } } }

/-- An enemy state mid-attack with its attack box already aligned over
the player. -/
def enemyHit : Sprite :=
  { enemyStart with
    position := { x := 150, y := 330 }
    isAttacking := true
    attackBox := { enemyStart.attackBox with position := { x := 100, y := 380 } } }

/-- A running match in which both fighters are attacking and both attack
boxes overlap the opponent in the same tick. -/
def stateMutual : GameState :=
  { player := playerHit
    enemy := enemyHit
    keys := { aPressed := false, dPressed := false }
    gameRunning := true }

/-- A live right-facing sprite used to instantiate the alignment law. -/
def spriteRight : Sprite :=
  { playerStart with position := { x := 200, y := 330 } }

/-- A sprite falling fast enough to reach the ground on the next tick. -/
def fallingSprite : Sprite :=
  { playerStart with position := { x := 100, y := 300 }, velocity := { x := 0, y := 20 } }

/-- A dead enemy, used to instantiate the AI policy's first branch. -/
def deadEnemy : Sprite :=
  { enemyStart with health := 0, isDead := true }

/-- An attacker whose attack box spans x in `[0, 100]` and y in
`[380, 430]`. -/
def touchAttacker : Sprite :=
  { playerStart with attackBox := { playerStart.attackBox with position := { x := 0, y := 380 } } }

/-- A defender whose body box touches the attacker's box exactly at the
corner `(100, 430)`. -/
def touchDefender : Sprite :=
  { enemyStart with position := { x := 100, y := 430 } }

/-! Helper lemmas about the entity operations and the loop phases. -/

theorem Sprite.update_health (s : Sprite) : s.update.health = s.health := by
  unfold Sprite.update
  dsimp only
  repeat' split
  all_goals rfl

theorem Sprite.takeHit_isAttacking (s : Sprite) (d : Num) :
    (s.takeHit d).isAttacking = s.isAttacking := by
  unfold Sprite.takeHit
  dsimp only
  split <;> rfl

theorem rectangularCollision_takeHit_left (s t : Sprite) (d : Num) :
    rectangularCollision (s.takeHit d) t = rectangularCollision s t := by
  unfold Sprite.takeHit
  dsimp only
  split <;> rfl

theorem rectangularCollision_clear_right (s t : Sprite) :
    rectangularCollision s { t with isAttacking := false } = rectangularCollision s t := rfl

theorem takeHit_health_clear_attack (s : Sprite) (d : Num) :
    (Sprite.takeHit { s with isAttacking := false } d).health = (s.takeHit d).health := by
  unfold Sprite.takeHit
  dsimp only
  split <;> rfl

theorem updatePhase_gameRunning (g : GameState) :
    (updatePhase g).gameRunning = g.gameRunning := rfl

theorem updatePhase_player_health (g : GameState) :
    (updatePhase g).player.health = g.player.health := Sprite.update_health g.player

theorem updatePhase_enemy_health (g : GameState) :
    (updatePhase g).enemy.health = g.enemy.health := Sprite.update_health g.enemy

theorem movementPhase_player_health (g : GameState) :
    (movementPhase g).player.health = g.player.health := by
  unfold movementPhase
  dsimp only
  repeat' split
  all_goals rfl

theorem movementPhase_enemy (g : GameState) : (movementPhase g).enemy = g.enemy := rfl

theorem aiPhase_player (g : GameState) (r : Num) : (aiPhase g r).player = g.player := rfl

theorem aiPhase_enemy_health (g : GameState) (r : Num) :
    (aiPhase g r).enemy.health = g.enemy.health := by
  unfold aiPhase updateEnemyAI Sprite.attack
  dsimp only
  repeat' split
  all_goals rfl

theorem collisionPhase_not_running (g : GameState) (h : g.gameRunning = false) :
    collisionPhase g = g := by
  unfold collisionPhase
  dsimp only
  rw [if_neg, if_neg] <;> simp [h]

theorem winnerMessage_congr {p p' e e' : Sprite}
    (hp : p.health = p'.health) (he : e.health = e'.health) :
    winnerMessage p e = winnerMessage p' e' := by
  unfold winnerMessage
  rw [hp, he]
theorem takeHit_healthInv (s : Sprite) (d : Num) (hs : HealthInv s) (hd : 0 ≤ d) :
    HealthInv (s.takeHit d) := by
  obtain ⟨h0, h100, hdead⟩ := hs
  unfold Sprite.takeHit
  dsimp only
  split
  case isTrue h =>
    exact ⟨(by decide : (0 : Num) ≤ 0), (by decide : (0 : Num) ≤ 100), by simp⟩
  case isFalse h =>
    refine ⟨?_, ?_, ?_⟩
    · simp only [Num.le_iff, Num.sub_cents, Num.ofNat_cents, not_le] at h ⊢
      omega
    · simp only [Num.le_iff, Num.sub_cents, Num.ofNat_cents, not_le] at h h100 hd ⊢
      omega
    · constructor
      · intro hsd
        exfalso
        have hh := hdead.mp hsd
        simp only [Num.le_iff, Num.lt_iff, Num.eq_iff, Num.sub_cents, Num.ofNat_cents,
          not_le] at h hd hh
        omega
      · intro hh
        exfalso
        simp only [Num.le_iff, Num.lt_iff, Num.eq_iff, Num.sub_cents, Num.ofNat_cents,
          not_le] at h hh
        omega

theorem takeHit_dead_noop (s : Sprite) (d : Num) (hdead : s.isDead = true)
    (hh : s.health = 0) (hd : 0 ≤ d) : s.takeHit d = s := by
  unfold Sprite.takeHit
  dsimp only
  rw [if_pos ?hc]
  case hc =>
    simp only [Num.le_iff, Num.sub_cents, Num.ofNat_cents, Num.eq_iff] at hh hd ⊢
    omega
  cases s
  simp_all

/-! The claims. -/

/-- Claim C1, counterexample: in a match that ends by the enemy's health
reaching 0, the terminal message is published again on the very next
tick, so it is not published exactly once per match. -/
theorem terminal_message_published_twice :
    (animateRun stateCE [1, 1]).2 = ["Player 1 Wins", "Player 1 Wins"] := by decide

/-- Claim C1, amended: the terminal message is published at the tick on
which the match ends, but the end-of-tick terminal evaluation is not
guarded by the match status, so after any tick that published a message
the next tick re-runs terminal evaluation and republishes the identical
message (the healths can no longer change once the match has stopped). -/
theorem terminal_evaluation_refires (g : GameState) (r r2 : Num)
    (h : (animate g r).2 ≠ []) :
    (animate (animate g r).1 r2).2 = (animate g r).2 := by
  unfold animate at h ⊢
  set k := collisionPhase (aiPhase (movementPhase (updatePhase g)) r) with hk
  by_cases hc : k.enemy.health ≤ 0 ∨ k.player.health ≤ 0
  · have h1 : endCheckPhase k =
        ({ k with gameRunning := false }, [winnerMessage k.player k.enemy]) := by
      unfold endCheckPhase
      rw [if_pos hc]
    rw [h1]
    dsimp only
    have hrun :
        (aiPhase (movementPhase (updatePhase { k with gameRunning := false })) r2).gameRunning =
          false := rfl
    rw [collisionPhase_not_running _ hrun]
    have hpe :
        (aiPhase (movementPhase (updatePhase { k with gameRunning := false })) r2).enemy.health =
          k.enemy.health := by
      rw [aiPhase_enemy_health, movementPhase_enemy, updatePhase_enemy_health]
    have hpp :
        (aiPhase (movementPhase (updatePhase { k with gameRunning := false })) r2).player.health =
          k.player.health := by
      rw [aiPhase_player, movementPhase_player_health, updatePhase_player_health]
    unfold endCheckPhase
    rw [if_pos (by rw [hpe, hpp]; exact hc)]
    dsimp only
    rw [winnerMessage_congr hpp hpe]
  · have h1 : endCheckPhase k = (k, []) := by
      unfold endCheckPhase
      rw [if_neg hc]
    rw [h1] at h
    exact absurd rfl h

/-- Claim C1, witness for the amended theorem at a concrete ending
match. -/
theorem terminal_evaluation_refires_witness :
    (animate (animate stateCE 1).1 1).2 = (animate stateCE 1).2 :=
  terminal_evaluation_refires stateCE 1 1 (by decide)

/-- Claim C2, counterexample: for a dead entity the per-tick update does
not reposition the attack box at all, so the box can stay away from the
place the alignment formula names. -/
theorem dead_attack_box_not_repositioned :
    deadSpriteCE.update.attackBox.position = deadSpriteCE.attackBox.position ∧
    deadSpriteCE.attackBox.position.x ≠
      deadSpriteCE.position.x + deadSpriteCE.attackBox.offset.x := by decide

/-- Claim C2, amended: once an entity is dead its per-tick update is a
complete no-op — the attack-box alignment and the gravity computation
are skipped together with the movement physics. -/
theorem update_dead_is_noop (s : Sprite) (h : s.isDead = true) : s.update = s := by
  unfold Sprite.update
  rw [if_pos h]

/-- Claim C2, witness for the amended theorem on a concrete dead
sprite. -/
theorem update_dead_is_noop_witness : deadSpriteCE.update = deadSpriteCE :=
  update_dead_is_noop deadSpriteCE rfl

/-- Claim C3: along any sequence of damage applications with nonnegative
amounts, health stays in `[0, 100]` and `isDead` holds exactly when
health is 0; and for an entity that is already dead, further damage
leaves the whole state unchanged. -/
theorem takeHit_sequence_invariant (damages : List Num) (s : Sprite)
    (hs : HealthInv s) (hd : ∀ d ∈ damages, 0 ≤ d) :
    HealthInv (damages.foldl Sprite.takeHit s) ∧
    (s.isDead = true → damages.foldl Sprite.takeHit s = s) := by
  induction damages generalizing s with
  | nil => exact ⟨hs, fun _ => rfl⟩
  | cons d ds ih =>
    have hd0 : 0 ≤ d := hd d (List.mem_cons_self d ds)
    have hds : ∀ x ∈ ds, 0 ≤ x := fun x hx => hd x (List.mem_cons_of_mem d hx)
    refine ⟨(ih (s.takeHit d) (takeHit_healthInv s d hs hd0) hds).1, ?_⟩
    intro hdead
    have heq : s.takeHit d = s :=
      takeHit_dead_noop s d hdead (hs.2.2.mp hdead) hd0
    rw [List.foldl_cons, heq]
    exact (ih s hs hds).2 hdead

/-- Claim C3, witness: the invariant holds after the concrete damage
sequence 30, 50, 40, 10 applied to the freshly created player. -/
theorem takeHit_sequence_invariant_witness :
    HealthInv ([30, 50, 40, 10].foldl Sprite.takeHit playerStart) ∧
    (playerStart.isDead = true →
      [30, 50, 40, 10].foldl Sprite.takeHit playerStart = playerStart) :=
  takeHit_sequence_invariant [30, 50, 40, 10] playerStart
    ⟨by decide, by decide, by decide⟩
    (by intro d hd; fin_cases hd <;> decide)

/-- Claim C4: in a tick in which the match is running, both fighters are
alive and attacking, and both attack boxes overlap the opponent's body
box, the collision phase damages both sides by 10 and clears both attack
flags — clearing the player's flag on its hit does not suppress the
enemy's hit. -/
theorem mutual_hit_damages_both (g : GameState)
    (hrun : g.gameRunning = true)
    (hpa : g.player.isAttacking = true) (hea : g.enemy.isAttacking = true)
    (hpd : g.player.isDead = false) (hed : g.enemy.isDead = false)
    (hc1 : rectangularCollision g.player g.enemy = true)
    (hc2 : rectangularCollision g.enemy g.player = true) :
    (collisionPhase g).enemy.health = (g.enemy.takeHit 10).health ∧
    (collisionPhase g).player.health = (g.player.takeHit 10).health ∧
    (collisionPhase g).player.isAttacking = false ∧
    (collisionPhase g).enemy.isAttacking = false := by
  unfold collisionPhase
  dsimp only
  have hcond1 : rectangularCollision g.player g.enemy = true ∧
      g.player.isAttacking = true ∧ g.gameRunning = true := ⟨hc1, hpa, hrun⟩
  rw [if_pos hed, if_pos hcond1]
  dsimp only
  have hcond2 : rectangularCollision (g.enemy.takeHit 10)
        { g.player with isAttacking := false } = true ∧
      (g.enemy.takeHit 10).isAttacking = true ∧ g.gameRunning = true := by
    refine ⟨?_, ?_, hrun⟩
    · rw [rectangularCollision_takeHit_left, rectangularCollision_clear_right]
      exact hc2
    · rw [Sprite.takeHit_isAttacking]
      exact hea
  rw [if_pos hcond2, if_pos hpd]
  refine ⟨rfl, ?_, ?_, rfl⟩
  · exact takeHit_health_clear_attack g.player 10
  · exact Sprite.takeHit_isAttacking _ 10

/-- Claim C4, witness at a concrete simultaneous mutual hit. -/
theorem mutual_hit_witness :
    (collisionPhase stateMutual).enemy.health = (stateMutual.enemy.takeHit 10).health ∧
    (collisionPhase stateMutual).player.health = (stateMutual.player.takeHit 10).health ∧
    (collisionPhase stateMutual).player.isAttacking = false ∧
    (collisionPhase stateMutual).enemy.isAttacking = false :=
  mutual_hit_damages_both stateMutual rfl rfl rfl rfl rfl (by decide) (by decide)

/-- Claim C5, counterexample: attack at time 0 and again at time 50; at
time 100 the first scheduled reset fires and `isAttacking` is already
false, although fewer than 100 ms have passed since the most recent
call — the window does not restart. -/
theorem attack_window_counterexample :
    (elapseTo (attackCall (attackCall ⟨false, []⟩ 0) 50) 100).isAttacking = false ∧
    50 + 100 > 100 := by decide

/-- Claim C5, amended: `attack()` sets `isAttacking` and schedules an
un-cancelable reset 100 ms later; calling it again while attacking does
not extend the window, because the first call's reset still fires — the
flag is false once 100 ms have elapsed since the first call of an
overlapping sequence, whatever the time of the later call. -/
theorem attack_reset_earliest_wins (s : AttackTimer) (t1 t2 now : Nat)
    (h : t1 + 100 ≤ now) :
    (attackCall s t1).isAttacking = true ∧
    (elapseTo (attackCall (attackCall s t1) t2) now).isAttacking = false := by
  refine ⟨rfl, ?_⟩
  unfold elapseTo attackCall
  dsimp only
  have hb : ((s.pending ++ [t1 + 100]) ++ [t2 + 100]).any (fun d => decide (d ≤ now)) = true := by
    simp only [List.any_append, List.any_cons, List.any_nil, Bool.or_eq_true,
      decide_eq_true_eq]
    tauto
  rw [hb]
  rfl

/-- Claim C5, witness for the amended theorem at concrete times. -/
theorem attack_reset_earliest_wins_witness :
    (attackCall ⟨false, []⟩ 0).isAttacking = true ∧
    (elapseTo (attackCall (attackCall (⟨false, []⟩ : AttackTimer) 0) 50) 120).isAttacking =
      false :=
  attack_reset_earliest_wins ⟨false, []⟩ 0 50 120 (by decide)

/-- Claim C6: for a live entity the per-tick alignment places the attack
box at `position.x + offset.x` when facing right, at
`position.x - attackBox.width + width - offset.x` when facing left, and
at `position.y + offset.y` vertically, where `position` is the entity's
position at the start of the tick. -/
theorem attack_box_alignment (s : Sprite) (h : s.isDead = false) :
    (s.direction = 1 →
      s.update.attackBox.position.x = s.position.x + s.attackBox.offset.x) ∧
    (s.direction = -1 →
      s.update.attackBox.position.x =
        s.position.x - s.attackBox.width + s.width - s.attackBox.offset.x) ∧
    s.update.attackBox.position.y = s.position.y + s.attackBox.offset.y := by
  unfold Sprite.update
  rw [if_neg (by simp [h])]
  dsimp only
  refine ⟨?_, ?_, ?_⟩
  · intro hdir
    rw [if_pos hdir]
    repeat' split
    all_goals rfl
  · intro hdir
    have hne : ¬s.direction = 1 := by simp [hdir]
    rw [if_neg hne]
    repeat' split
    all_goals rfl
  · repeat' split
    all_goals rfl

/-- Claim C6, witness on a concrete right-facing sprite. -/
theorem attack_box_alignment_witness :
    spriteRight.update.attackBox.position.x =
      spriteRight.position.x + spriteRight.attackBox.offset.x ∧
    spriteRight.update.attackBox.position.y =
      spriteRight.position.y + spriteRight.attackBox.offset.y := by
  have h := attack_box_alignment spriteRight rfl
  exact ⟨h.1 rfl, h.2.2⟩

/-- Claim C7: for a live entity with positive vertical velocity, when the
projected bottom edge would cross the ground line the tick zeroes the
vertical velocity and pins the vertical position exactly to
`GAME_HEIGHT - height - GROUND_HEIGHT`; otherwise gravity is added to
the vertical velocity. -/
theorem ground_snap (s : Sprite) (hdead : s.isDead = false) (hvy : 0 < s.velocity.y) :
    (s.position.y + s.velocity.y + s.height + s.velocity.y ≥ GAME_HEIGHT - GROUND_HEIGHT →
      s.update.velocity.y = 0 ∧
      s.update.position.y = GAME_HEIGHT - s.height - GROUND_HEIGHT) ∧
    (s.position.y + s.velocity.y + s.height + s.velocity.y < GAME_HEIGHT - GROUND_HEIGHT →
      s.update.velocity.y = s.velocity.y + GRAVITY) := by
  unfold Sprite.update
  rw [if_neg (by simp [hdead])]
  dsimp only
  constructor
  · intro hcond
    rw [if_pos hcond]
    repeat' split
    all_goals exact ⟨rfl, rfl⟩
  · intro hcond
    repeat' split
    all_goals
      first
        | rfl
        | (exfalso
           simp only [ge_iff_le, not_le, Num.le_iff, Num.lt_iff, Num.add_cents,
             Num.sub_cents, Num.ofNat_cents] at *
           omega)

/-- Claim C7, witness on a concrete falling sprite that reaches the
ground this tick. -/
theorem ground_snap_witness :
    fallingSprite.update.velocity.y = 0 ∧
    fallingSprite.update.position.y =
      GAME_HEIGHT - fallingSprite.height - GROUND_HEIGHT :=
  (ground_snap fallingSprite rfl (by decide)).1 (by decide)

/-- Claim C8: the enemy AI is a function of the signed horizontal
distance from enemy to player: when dead or the match is stopped, only
the horizontal velocity is zeroed; when the absolute distance is
strictly between 60 and 400 the enemy moves at speed 2 toward the player
and faces it; at distance at most 60 the velocity stays 0, the facing is
set toward the player, and an attack is initiated exactly when the
tick's random draw is below 0.02; at distance at least 400 only the
velocity reset happens. -/
theorem enemy_ai_policy (player enemy : Sprite) (gameRunning : Bool) (randomDraw : Num) :
    (enemy.isDead = true ∨ gameRunning = false →
      updateEnemyAI player enemy gameRunning randomDraw =
        { enemy with velocity := { enemy.velocity with x := 0 } }) ∧
    (enemy.isDead = false → gameRunning = true →
      (((player.position.x - enemy.position.x).abs < 400 ∧
        (player.position.x - enemy.position.x).abs > 60 ∧
        player.position.x - enemy.position.x > 0 →
          updateEnemyAI player enemy gameRunning randomDraw =
            { enemy with velocity := { enemy.velocity with x := 2 }, direction := 1 }) ∧
       ((player.position.x - enemy.position.x).abs < 400 ∧
        (player.position.x - enemy.position.x).abs > 60 ∧
        player.position.x - enemy.position.x < 0 →
          updateEnemyAI player enemy gameRunning randomDraw =
            { enemy with velocity := { enemy.velocity with x := -2 }, direction := -1 }) ∧
       ((player.position.x - enemy.position.x).abs ≤ 60 →
          (updateEnemyAI player enemy gameRunning randomDraw).velocity.x = 0 ∧
          (player.position.x - enemy.position.x > 0 →
            (updateEnemyAI player enemy gameRunning randomDraw).direction = 1) ∧
          (player.position.x - enemy.position.x < 0 →
            (updateEnemyAI player enemy gameRunning randomDraw).direction = -1) ∧
          (randomDraw < Num.ofCents 2 →
            (updateEnemyAI player enemy gameRunning randomDraw).isAttacking = true) ∧
          (¬randomDraw < Num.ofCents 2 →
            (updateEnemyAI player enemy gameRunning randomDraw).isAttacking =
              enemy.isAttacking) ∧
          (updateEnemyAI player enemy gameRunning randomDraw).health = enemy.health ∧
          (updateEnemyAI player enemy gameRunning randomDraw).position = enemy.position) ∧
       (400 ≤ (player.position.x - enemy.position.x).abs →
          updateEnemyAI player enemy gameRunning randomDraw =
            { enemy with velocity := { enemy.velocity with x := 0 } }))) := by
  constructor
  · intro h
    unfold updateEnemyAI
    rw [if_pos h]
  · intro hd hr
    have hno : ¬(enemy.isDead = true ∨ gameRunning = false) := by simp [hd, hr]
    unfold updateEnemyAI
    rw [if_neg hno]
    dsimp only
    refine ⟨?_, ?_, ?_, ?_⟩
    · rintro ⟨h400, h60, hpos⟩
      have hcnd : (player.position.x - enemy.position.x).abs < 400 ∧
          (player.position.x - enemy.position.x).abs > 60 := ⟨h400, h60⟩
      rw [if_pos hcnd, if_pos hpos]
    · rintro ⟨h400, h60, hneg⟩
      have hcnd : (player.position.x - enemy.position.x).abs < 400 ∧
          (player.position.x - enemy.position.x).abs > 60 := ⟨h400, h60⟩
      have hn : ¬(player.position.x - enemy.position.x > 0) := by
        simp only [gt_iff_lt, Num.lt_iff, Num.ofNat_cents] at hneg ⊢
        omega
      rw [if_pos hcnd, if_neg hn]
    · intro hle
      have hn1 : ¬((player.position.x - enemy.position.x).abs < 400 ∧
          (player.position.x - enemy.position.x).abs > 60) := by
        rintro ⟨h1, h2⟩
        simp only [gt_iff_lt, Num.lt_iff, Num.le_iff, Num.ofNat_cents] at h2 hle
        omega
      rw [if_neg hn1, if_pos hle]
      refine ⟨?_, ?_, ?_, ?_, ?_, ?_, ?_⟩
      · split <;> rfl
      · intro hpos
        split <;> rfl
      · intro hneg
        have hn : ¬(player.position.x - enemy.position.x > 0) := by
          simp only [gt_iff_lt, Num.lt_iff, Num.ofNat_cents] at hneg ⊢
          omega
        split <;> rfl
      · intro hrand
        rw [if_pos hrand]
        rfl
      · intro hnr
        rw [if_neg hnr]
      · split <;> rfl
      · split <;> rfl
    · intro hge
      have hn1 : ¬((player.position.x - enemy.position.x).abs < 400 ∧
          (player.position.x - enemy.position.x).abs > 60) := by
        rintro ⟨h1, h2⟩
        simp only [gt_iff_lt, Num.lt_iff, Num.le_iff, Num.ofNat_cents] at h1 hge
        omega
      have hn2 : ¬((player.position.x - enemy.position.x).abs ≤ 60) := by
        simp only [Num.le_iff, Num.ofNat_cents] at hge ⊢
        omega
      rw [if_neg hn1, if_neg hn2]

/-- Claim C8, witness: a dead enemy only has its horizontal velocity
zeroed. -/
theorem enemy_ai_policy_witness :
    updateEnemyAI playerStart deadEnemy true 1 =
      { deadEnemy with velocity := { deadEnemy.velocity with x := 0 } } :=
  (enemy_ai_policy playerStart deadEnemy true 1).1 (Or.inl rfl)

/-- Claim C9: the collision test returns true exactly when the
attacker's attack box and the defender's body box intersect under
axis-aligned bounding-box overlap with inclusive bounds on all four
comparisons. -/
theorem collision_iff_inclusive_overlap (attacker defender : Sprite) :
    rectangularCollision attacker defender = true ↔
      attackBoxIntersectsBody attacker defender := by
  unfold rectangularCollision attackBoxIntersectsBody
  simp only [Bool.and_eq_true, decide_eq_true_eq, ge_iff_le]
  tauto

/-- Claim C9, witness: rectangles touching exactly at a corner count as
overlapping. -/
theorem collision_inclusive_witness :
    rectangularCollision touchAttacker touchDefender = true :=
  (collision_iff_inclusive_overlap touchAttacker touchDefender).mpr
    ⟨by decide, by decide, by decide, by decide⟩

/-- Claim C10: for every entity state, alive or dead, the per-tick
update leaves health, death state, attack flag, facing, color, body
size, last-key memory and the attack box's offset and dimensions
unchanged — it mutates only position, velocity, the attack-box position
and the jumping flag. -/
theorem update_mutates_only_motion (s : Sprite) :
    s.update.health = s.health ∧ s.update.isDead = s.isDead ∧
    s.update.isAttacking = s.isAttacking ∧ s.update.direction = s.direction ∧
    s.update.color = s.color ∧ s.update.width = s.width ∧ s.update.height = s.height ∧
    s.update.lastKey = s.lastKey ∧ s.update.attackBox.offset = s.attackBox.offset ∧
    s.update.attackBox.width = s.attackBox.width ∧
    s.update.attackBox.height = s.attackBox.height := by
  unfold Sprite.update
  dsimp only
  repeat' split
  all_goals exact ⟨rfl, rfl, rfl, rfl, rfl, rfl, rfl, rfl, rfl, rfl, rfl⟩

end PrecisionFighter
